import Mathlib

/-!
Shallow embedding of the Speech-Emotion-Recognition Week-5 pipeline
(`emotion_predictor.py`, `live_emotion_detector.py`, `demo_script.py`).

Samples, features and probabilities are modelled as rationals.  External
collaborators (librosa, numpy aggregation, joblib loading, the filesystem)
are bundled in an `ExternalOps` record of abstract functions; the repository
code composing them is translated directly.  Python exceptions are modelled
by the `PyError` inductive and fallible calls return `Except PyError _`.
-/

/-- Python exception classes that the Week-5 code raises or catches. -/
inductive PyError where
  | fileNotFoundError (msg : String)
  | valueError (msg : String)
  | keyError (msg : String)
  | indexError (msg : String)
  | exception (msg : String)
deriving DecidableEq

/-- Python `str(e)`: the message carried by the exception. -/
def PyError.str : PyError → String
  | .fileNotFoundError m => m
  | .valueError m => m
  | .keyError m => m
  | .indexError m => m
  | .exception m => m

/-- Fitted `StandardScaler` artifact: `joblib.load(scaler_path)`.
`n_features_in_` is the expected input dimension; `transform` the fitted
normalization, applied to a single (conceptually reshaped) row. -/
structure Scaler where
  n_features_in_ : ℕ
  transform : List ℚ → List ℚ

/-- Fitted sklearn classifier artifact: `joblib.load(model_path)`.
`predict` returns the class identifier for one scaled row
(`model.predict(x)[0]`); `predict_proba` is present only when the
classifier exposes a probability operation (`hasattr(model, 'predict_proba')`);
`classes_` is the fitted class-identifier order. -/
structure Model where
  predict : List ℚ → ℕ
  predict_proba : Option (List ℚ → List ℚ)
  classes_ : List ℕ

/-- External collaborators: filesystem existence checks, joblib artifact
loading, `librosa.load` decoding, and the librosa/numpy numeric primitives.
`mfcc y sr` is `librosa.feature.mfcc(y=y, sr=sr, n_mfcc=13)` as 13 rows of
per-frame coefficients; `delta m k` is `librosa.feature.delta(m, order=k)`;
`npMean`/`npStd` are `np.mean`/`np.std` of one row (axis-1 aggregation, and
the whole-array mean of the single-row spectral matrices). -/
structure ExternalOps where
  exists_file : String → Bool
  load_model : String → Model
  load_scaler : String → Scaler
  load : String → ℕ → ℚ → Except String (List ℚ × ℕ)
  mfcc : List ℚ → ℕ → Fin 13 → List ℚ
  delta : (Fin 13 → List ℚ) → ℕ → Fin 13 → List ℚ
  npMean : List ℚ → ℚ
  npStd : List ℚ → ℚ
  spectral_centroid : List ℚ → ℕ → List ℚ
  spectral_rolloff : List ℚ → ℕ → List ℚ
  zero_crossing_rate : List ℚ → List ℚ

/-- The shared 81-feature computation of `EmotionPredictor.extract_features`
(lines 109-144) and `LiveEmotionDetector.extract_features_from_audio`
(lines 87-122): MFCC mean/std, delta mean/std, delta-delta mean/std
(6 × 13 scalars) then the three spectral summaries, concatenated by
`np.hstack` in that order. -/
def compute_features (ops : ExternalOps) (y : List ℚ) (sr : ℕ) : List ℚ :=
  let mfcc := ops.mfcc y sr
  let delta_mfcc := ops.delta mfcc 1
  let delta2_mfcc := ops.delta mfcc 2
  let mfcc_mean := (List.finRange 13).map fun i => ops.npMean (mfcc i)
  let mfcc_std := (List.finRange 13).map fun i => ops.npStd (mfcc i)
  let delta_mean := (List.finRange 13).map fun i => ops.npMean (delta_mfcc i)
  let delta_std := (List.finRange 13).map fun i => ops.npStd (delta_mfcc i)
  let delta2_mean := (List.finRange 13).map fun i => ops.npMean (delta2_mfcc i)
  let delta2_std := (List.finRange 13).map fun i => ops.npStd (delta2_mfcc i)
  let spectral_centroid := ops.npMean (ops.spectral_centroid y sr)
  let spectral_rolloff := ops.npMean (ops.spectral_rolloff y sr)
  let zero_crossing_rate := ops.npMean (ops.zero_crossing_rate y)
  mfcc_mean ++ mfcc_std ++ delta_mean ++ delta_std ++ delta2_mean ++ delta2_std ++
    [spectral_centroid] ++ [spectral_rolloff] ++ [zero_crossing_rate]

/-- Object state of `EmotionPredictor` after `__init__`: the two loaded
artifacts.  (`expected_features` is recorded from the scaler, below.) -/
structure EmotionPredictor where
  model : Model
  scaler : Scaler

/-- Line 55: `self.expected_features = self.scaler.n_features_in_`. -/
def EmotionPredictor.expected_features (p : EmotionPredictor) : ℕ :=
  p.scaler.n_features_in_

/-- Constructor `EmotionPredictor.__init__` (lines 46-55): both artifact paths must
exist, else `FileNotFoundError` naming the missing path; on success the
artifacts are loaded. -/
def EmotionPredictor.make (ops : ExternalOps) (model_path scaler_path : String) :
    Except PyError EmotionPredictor :=
  if ops.exists_file model_path = false then
    .error (.fileNotFoundError ("Model not found at " ++ model_path))
  else if ops.exists_file scaler_path = false then
    .error (.fileNotFoundError ("Scaler not found at " ++ scaler_path))
  else
    .ok { model := ops.load_model model_path, scaler := ops.load_scaler scaler_path }

/-- The RAVDESS `emotion_map` dictionary (lines 58-67). -/
def emotion_map : List (ℕ × String) :=
  [(1, "Neutral"), (2, "Calm"), (3, "Happy"), (4, "Sad"),
   (5, "Angry"), (6, "Fearful"), (7, "Disgust"), (8, "Surprised")]

/-- Python `self.emotion_map[emotion_id]` lookup. -/
def emotion_map_get (emotion_id : ℕ) : Option String :=
  emotion_map.lookup emotion_id

/-- The dimension-reconciliation block of `extract_features`
(lines 147-162): when the produced length differs from
`self.expected_features`, append one zero for 81 → 82, two zeros for
81 → 83, and raise `ValueError` naming both lengths otherwise. -/
def reconcile (expected : ℕ) (features : List ℚ) : Except PyError (List ℚ) :=
  if features.length ≠ expected then
    if features.length = 81 ∧ expected = 82 then
      .ok (features ++ [0])
    else if features.length = 81 ∧ expected = 83 then
      .ok (features ++ [0, 0])
    else
      .error (.valueError ("Feature dimension mismatch: expected " ++
        toString expected ++ ", got " ++ toString features.length))
  else
    .ok features

/-- Body of the `try` block of `EmotionPredictor.extract_features`
(lines 100-164): decode via `librosa.load`, compute the 81 features, then
reconcile the dimension.  Any error raised here is wrapped by the
`except` clause in `extract_features` below. -/
def extract_body (ops : ExternalOps) (p : EmotionPredictor)
    (audio_path : String) (sr : ℕ) (duration : ℚ) : Except PyError (List ℚ) :=
  match ops.load audio_path sr duration with
  | .error msg => .error (.exception msg)
  | .ok (y, sr2) => reconcile p.expected_features (compute_features ops y sr2)

/-- Method `EmotionPredictor.extract_features` (lines 73-167): the existence check
precedes the `try`, so `FileNotFoundError` escapes unwrapped; everything
raised inside the `try` — decode failures and the dimension-mismatch
`ValueError` alike — is caught by `except Exception` and re-raised as a
generic `Exception("Feature extraction failed: " + str(e))`. -/
def extract_features (ops : ExternalOps) (p : EmotionPredictor)
    (audio_path : String) (sr : ℕ) (duration : ℚ) : Except PyError (List ℚ) :=
  if ops.exists_file audio_path = false then
    .error (.fileNotFoundError ("Audio file not found: " ++ audio_path))
  else
    match extract_body ops p audio_path sr duration with
    | .ok v => .ok v
    | .error e => .error (.exception ("Feature extraction failed: " ++ e.str))

/-- A prediction's payload: `(emotion_label, confidence, probabilities)`,
probabilities as a Python dict in insertion order. -/
abbrev PredictionRes : Type := String × Option ℚ × List (String × ℚ)

/-- Python dict assignment `d[k] = v`: overwrite in place when the key is
present, otherwise append preserving insertion order. -/
def dict_set (d : List (String × ℚ)) (k : String) (v : ℚ) : List (String × ℚ) :=
  if d.any (fun kv => kv.1 = k) then
    d.map (fun kv => if kv.1 = k then (k, v) else kv)
  else
    d ++ [(k, v)]

/-- Python dict read `d[k]` as an `Option` (a miss is a `KeyError` at the
use site). -/
def dict_get (d : List (String × ℚ)) (k : String) : Option ℚ :=
  (d.find? (fun kv => kv.1 = k)).map (fun kv => kv.2)

/-- The probability-mapping loop (`emotion_predictor.py` lines 209-212 and
`live_emotion_detector.py` lines 153-156): for each `idx, prob` in
`enumerate(probs)`, look up `model.classes_[idx]` (an `IndexError` when out
of range) and `emotion_map[...]` (a `KeyError` when absent), then
`probabilities[emotion_name] = prob`. -/
def build_probabilities (classes : List ℕ) (probs : List ℚ) :
    Except PyError (List (String × ℚ)) :=
  probs.enum.foldlM
    (fun d ip =>
      match classes.get? ip.1 with
      | none => .error (.indexError "list index out of range")
      | some cid =>
        match emotion_map_get cid with
        | none => .error (.keyError (toString cid))
        | some emotion_name => .ok (dict_set d emotion_name ip.2))
    []

/-- The classification tail shared verbatim by `EmotionPredictor.predict`
(lines 198-216) and `LiveEmotionDetector.predict_from_audio`
(lines 143-160): predict one class id, map it through `emotion_map`
(`KeyError` when absent), and when the classifier has `predict_proba`
build the distribution and read the confidence off it. -/
def classify_scaled (m : Model) (features_scaled : List ℚ) :
    Except PyError PredictionRes :=
  match emotion_map_get (m.predict features_scaled) with
  | none => .error (.keyError (toString (m.predict features_scaled)))
  | some emotion_label =>
    match m.predict_proba with
    | none => .ok (emotion_label, none, [])
    | some proba =>
      match build_probabilities m.classes_ (proba features_scaled) with
      | .error e => .error e
      | .ok probabilities =>
        match dict_get probabilities emotion_label with
        | none => .error (.keyError emotion_label)
        | some confidence => .ok (emotion_label, some confidence, probabilities)

/-- Method `EmotionPredictor.predict` (lines 169-216): extract features (default
`sr=22050`, `duration=3.0`), reshape to one row, scale, classify. -/
def predict (ops : ExternalOps) (p : EmotionPredictor) (audio_path : String) :
    Except PyError PredictionRes :=
  match extract_features ops p audio_path 22050 3 with
  | .error e => .error e
  | .ok features => classify_scaled p.model (p.scaler.transform features)

/-- One iteration of the `predict_batch` loop body (lines 232-238): a
successful prediction is appended as-is, any raised error is caught and
appended as `(None, None, {})`. -/
def batch_item (ops : ExternalOps) (p : EmotionPredictor) (path : String) :
    Option String × Option ℚ × List (String × ℚ) :=
  match predict ops p path with
  | .ok r => (some r.1, r.2.1, r.2.2)
  | .error _ => (none, none, [])

/-- Method `EmotionPredictor.predict_batch` (lines 218-239). -/
def predict_batch (ops : ExternalOps) (p : EmotionPredictor)
    (audio_paths : List String) : List (Option String × Option ℚ × List (String × ℚ)) :=
  audio_paths.map (batch_item ops p)

/-- Startup of `demo_script.main` (lines 161-174): construct the predictor
from the fixed artifact paths; any exception (`FileNotFoundError` or
otherwise) reaches a handler that calls `sys.exit(1)`.  `.inl c` is
process exit with code `c`; `.inr p` continues with the predictor. -/
def demo_startup (ops : ExternalOps) : Sum ℕ EmotionPredictor :=
  match EmotionPredictor.make ops "artifacts/svm_model.pkl" "artifacts/standard_scaler.pkl" with
  | .ok p => .inr p
  | .error _ => .inl 1

/-- Object state of `LiveEmotionDetector` after `__init__` (lines 24-46):
an inner predictor plus the capture parameters (defaults `duration=3`,
`sample_rate=22050`). -/
structure LiveEmotionDetector where
  predictor : EmotionPredictor
  duration : ℕ
  sample_rate : ℕ

/-- Mutable detector state: the contents of `self.history`
(`deque(maxlen=3)`, line 42), oldest first. -/
structure DetectorState where
  history : List PredictionRes

/-- Initially `self.history = deque(maxlen=3)` is empty. -/
def init_state : DetectorState := ⟨[]⟩

/-- The length clamp of `extract_features_from_audio` (lines 82-84): a
buffer longer than `duration * sample_rate` is truncated to that length;
anything else is passed through unchanged. -/
def clip_audio (d : LiveEmotionDetector) (audio : List ℚ) : List ℚ :=
  if audio.length > d.duration * d.sample_rate then
    audio.take (d.duration * d.sample_rate)
  else
    audio

/-- Method `LiveEmotionDetector.extract_features_from_audio` (lines 72-124):
clamp the buffer, then run the same 81-feature pipeline at
`self.sample_rate`.  This path has no dimension-reconciliation step. -/
def extract_features_from_audio (ops : ExternalOps) (d : LiveEmotionDetector)
    (audio : List ℚ) : List ℚ :=
  compute_features ops (clip_audio d audio) d.sample_rate

/-- Method `LiveEmotionDetector.predict_from_audio` (lines 126-160). -/
def predict_from_audio (ops : ExternalOps) (d : LiveEmotionDetector)
    (audio : List ℚ) : Except PyError PredictionRes :=
  classify_scaled d.predictor.model
    (d.predictor.scaler.transform (extract_features_from_audio ops d audio))

/-- Peak amplitude `np.max(np.abs(audio))`.  The recorded buffer is non-empty and the
mapped values are non-negative, so folding `max` with seed 0 is exactly
numpy's maximum over the absolute values. -/
def maxAbs (audio : List ℚ) : ℚ :=
  (audio.map (fun x => |x|)).foldr max 0

/-- The fixed silence threshold `0.01` of lines 228 and 260, written in
reduced-fraction form (`silence_threshold_eq` certifies the value). -/
def silence_threshold : ℚ := Rat.mk' 1 100 (by decide) (by decide)

theorem silence_threshold_eq : silence_threshold = 1 / 100 := by
  rw [silence_threshold, Rat.mk'_eq_divInt, Rat.divInt_eq_div]
  norm_num

/-- One iteration of the `run_continuous` loop body (lines 221-240) given
the buffer `record_audio` returned: the silence check
`np.max(np.abs(audio)) < 0.01` prints a warning and `continue`s without
predicting; otherwise `predict_from_audio` runs (an exception it raises
propagates out of the loop) and the result is displayed.  Returns the
reported result (if any) and the detector state after the iteration. -/
def run_continuous_step (ops : ExternalOps) (d : LiveEmotionDetector)
    (s : DetectorState) (audio : List ℚ) :
    Except PyError (Option PredictionRes) × DetectorState :=
  if maxAbs audio < silence_threshold then
    (.ok none, s)
  else
    match predict_from_audio ops d audio with
    | .error e => (.error e, s)
    | .ok r => (.ok (some r), s)

/-- Method `LiveEmotionDetector.run_single` (lines 246-270) given the recorded
buffer: on a quiet buffer it warns and returns without a result; otherwise
it predicts and displays the result. -/
def run_single (ops : ExternalOps) (d : LiveEmotionDetector) (audio : List ℚ) :
    Except PyError (Option PredictionRes) :=
  if maxAbs audio < silence_threshold then
    .ok none
  else
    (predict_from_audio ops d audio).map some

/-! ### Concrete artifacts and environments (used by witnesses and
counterexamples) -/

/-- A classifier fitted on classes `[1, 2]` with a probability operation. -/
def model0 : Model where
  predict := fun _ => 1
  predict_proba := some (fun _ => [1, 0])
  classes_ := [1, 2]

/-- The same classifier with no probability operation. -/
def model_noproba : Model where
  predict := fun _ => 1
  predict_proba := none
  classes_ := [1, 2]

/-- Identity scaler expecting `n` features. -/
def scaler_of (n : ℕ) : Scaler where
  n_features_in_ := n
  transform := id

/-- Environment where only `a.wav` exists, decoding succeeds with an
empty buffer, and every numeric primitive returns zeros. -/
def ops0 : ExternalOps where
  exists_file := fun path => path == "a.wav"
  load_model := fun _ => model0
  load_scaler := fun _ => scaler_of 81
  load := fun _ _ _ => .ok ([], 22050)
  mfcc := fun _ _ _ => []
  delta := fun _ _ _ => []
  npMean := fun _ => 0
  npStd := fun _ => 0
  spectral_centroid := fun _ _ => []
  spectral_rolloff := fun _ _ => []
  zero_crossing_rate := fun _ => []

/-- Environment where no file exists. -/
def opsF : ExternalOps :=
  { ops0 with exists_file := fun _ => false }

/-- Environment where decoding always fails. -/
def opsBad : ExternalOps :=
  { ops0 with load := fun _ _ _ => .error "decode failed" }

/-- Predictor whose scaler expects 81 features. -/
def p81 : EmotionPredictor := { model := model0, scaler := scaler_of 81 }

/-- Predictor whose scaler expects 82 features. -/
def p82 : EmotionPredictor := { model := model0, scaler := scaler_of 82 }

/-- Predictor whose scaler expects 83 features. -/
def p83 : EmotionPredictor := { model := model0, scaler := scaler_of 83 }

/-- Predictor whose scaler expects 100 features (unreconcilable). -/
def p100 : EmotionPredictor := { model := model0, scaler := scaler_of 100 }

/-- Predictor with no probability operation. -/
def pNoProba : EmotionPredictor := { model := model_noproba, scaler := scaler_of 81 }

/-- The distribution `predict` builds for `model0`. -/
def dist0 : List (String × ℚ) := [("Neutral", 1), ("Calm", 0)]

/-- Live detector over `p82` with tiny capture parameters. -/
def d82 : LiveEmotionDetector := { predictor := p82, duration := 1, sample_rate := 4 }

/-- Live detector over `p81` with the default capture parameters. -/
def d81 : LiveEmotionDetector := { predictor := p81, duration := 3, sample_rate := 22050 }


/-! ### Helper lemmas -/

theorem compute_features_length (ops : ExternalOps) (y : List ℚ) (sr : ℕ) :
    (compute_features ops y sr).length = 81 := by
  simp [compute_features]

theorem reconcile_ok_length {e : ℕ} {f w : List ℚ} (h : reconcile e f = .ok w) :
    w.length = e := by
  unfold reconcile at h
  split at h
  · split at h
    · rename_i hne hc
      cases h
      simp [hc.1, hc.2]
    · split at h
      · rename_i hne hc1 hc2
        cases h
        simp [hc2.1, hc2.2]
      · cases h
  · rename_i hne
    cases h
    omega

theorem reconcile_82 {f w : List ℚ} (hf : f.length = 81)
    (h : reconcile 82 f = .ok w) : w = f ++ [0] := by
  unfold reconcile at h
  rw [hf] at h
  simp at h
  exact h.symm

theorem reconcile_83 {f w : List ℚ} (hf : f.length = 81)
    (h : reconcile 83 f = .ok w) : w = f ++ [0, 0] := by
  unfold reconcile at h
  rw [hf] at h
  simp at h
  exact h.symm

theorem reconcile_mismatch {e : ℕ} {f : List ℚ} (hf : f.length = 81)
    (h81 : e ≠ 81) (h82 : e ≠ 82) (h83 : e ≠ 83) :
    reconcile e f = .error (.valueError ("Feature dimension mismatch: expected " ++
      toString e ++ ", got " ++ toString (81 : ℕ))) := by
  unfold reconcile
  rw [hf]
  simp [Ne.symm h81, h82, h83]

theorem extract_body_ok_inv {ops : ExternalOps} {p : EmotionPredictor}
    {path : String} {sr : ℕ} {dur : ℚ} {w : List ℚ}
    (h : extract_body ops p path sr dur = .ok w) :
    ∃ y sr2, ops.load path sr dur = .ok (y, sr2) ∧
      reconcile p.expected_features (compute_features ops y sr2) = .ok w := by
  unfold extract_body at h
  split at h
  · cases h
  · rename_i y sr2 hl
    exact ⟨y, sr2, hl, h⟩

theorem extract_features_ok_inv {ops : ExternalOps} {p : EmotionPredictor}
    {path : String} {sr : ℕ} {dur : ℚ} {v : List ℚ}
    (h : extract_features ops p path sr dur = .ok v) :
    ∃ y sr2, ops.load path sr dur = .ok (y, sr2) ∧
      reconcile p.expected_features (compute_features ops y sr2) = .ok v := by
  unfold extract_features at h
  split at h
  · cases h
  · split at h
    · rename_i w hb
      cases h
      exact extract_body_ok_inv hb
    · cases h

/-! ### Claim theorems -/

/-- C1 (amended): on the file-decode path every successful extraction
returns a vector whose length equals the loaded normalizer's
`expected_features` (with at most one padding rule applied); the
live-capture path, which has no reconciliation step, always returns the
raw 81-entry vector. -/
theorem extract_feature_length :
    (∀ ops p path sr dur v, extract_features ops p path sr dur = .ok v →
      v.length = p.expected_features) ∧
    (∀ ops d audio, (extract_features_from_audio ops d audio).length = 81) := by
  constructor
  · intro ops p path sr dur v h
    obtain ⟨y, sr2, _, hr⟩ := extract_features_ok_inv h
    exact reconcile_ok_length hr
  · intro ops d audio
    exact compute_features_length ops (clip_audio d audio) d.sample_rate

/-- C1 counterexample: for a detector whose loaded normalizer expects 82
features, the live-capture extraction returns 81 features, so the original
claim fails on the live path. -/
theorem extract_feature_length_cex :
    ¬ ((extract_features_from_audio ops0 d82 [1]).length
        = d82.predictor.expected_features) := by decide

/-- C1 witness: the file-decode branch, evaluated on a concrete
82-feature predictor. -/
theorem extract_feature_length_witness :
    extract_features ops0 p82 "a.wav" 22050 3 = .ok (List.replicate 82 0) ∧
    (List.replicate 82 (0 : ℚ)).length = p82.expected_features :=
  ⟨rfl, extract_feature_length.1 ops0 p82 "a.wav" 22050 3 (List.replicate 82 0) rfl⟩

/-- C2: when extraction succeeds on a buffer `y` decoded at rate `sr2`,
the result with `expected_features = 82` is exactly the 81 scalars
`compute_features ops y sr2` actually produced, followed by one appended
zero (so the last entry is 0); with `expected_features = 83` it is those
same 81 scalars followed by two appended zeros. -/
theorem reconciliation_rules :
    ∀ ops p path sr dur v y sr2,
      extract_features ops p path sr dur = .ok v →
      ops.load path sr dur = .ok (y, sr2) →
    (p.expected_features = 82 →
      v = compute_features ops y sr2 ++ [0] ∧
      (compute_features ops y sr2).length = 81 ∧ v.length = 82 ∧
      v.getLast? = some 0) ∧
    (p.expected_features = 83 →
      v = compute_features ops y sr2 ++ [0, 0] ∧
      (compute_features ops y sr2).length = 81 ∧ v.length = 83) := by
  intro ops p path sr dur v y sr2 h hl
  obtain ⟨y2, sr3, hl2, hr⟩ := extract_features_ok_inv h
  rw [hl] at hl2
  simp only [Except.ok.injEq, Prod.mk.injEq] at hl2
  obtain ⟨hy, hsr⟩ := hl2
  subst hy; subst hsr
  have hlen := compute_features_length ops y sr2
  constructor
  · intro h82
    rw [h82] at hr
    have hv := reconcile_82 hlen hr
    subst hv
    exact ⟨rfl, hlen, by simp [hlen], by simp⟩
  · intro h83
    rw [h83] at hr
    have hv := reconcile_83 hlen hr
    subst hv
    exact ⟨rfl, hlen, by simp [hlen]⟩

/-- C2 witness: the 81 → 82 rule evaluated on a concrete predictor; the
result is the produced feature vector plus one zero. -/
theorem reconciliation_rules_witness :
    (List.replicate 82 (0 : ℚ)) = compute_features ops0 [] 22050 ++ [0] ∧
    (compute_features ops0 [] 22050).length = 81 ∧
    (List.replicate 82 (0 : ℚ)).length = 82 ∧
    (List.replicate 82 (0 : ℚ)).getLast? = some 0 :=
  (reconciliation_rules ops0 p82 "a.wav" 22050 3 (List.replicate 82 0)
    [] 22050 rfl rfl).1 rfl

/-- C7 counterexample: an unreconcilable mismatch does surface an error
naming both lengths, but the `ValueError` raised inside the `try` block is
caught by the blanket `except Exception` and re-raised as the same generic
`Exception` class that wraps decode failures — not a distinct error
class.  The two evaluations show a dimension mismatch and a decode
failure producing errors of the same constructor. -/
theorem dimension_error_wrapped_cex :
    extract_features ops0 p100 "a.wav" 22050 3 =
      .error (.exception
        "Feature extraction failed: Feature dimension mismatch: expected 100, got 81") ∧
    extract_features opsBad p81 "a.wav" 22050 3 =
      .error (.exception "Feature extraction failed: decode failed") :=
  ⟨rfl, rfl⟩

/-- C7 (amended): any mismatch other than 81 → 82 / 81 → 83 makes
`extract_features` fail with an error message naming both the expected
and the produced length, wrapped by the generic
`Feature extraction failed:` handler into the same error class used for
decode and numeric failures. -/
theorem dimension_mismatch_error :
    ∀ ops p path sr dur y sr2,
      ops.exists_file path = true →
      ops.load path sr dur = .ok (y, sr2) →
      p.expected_features ≠ 81 → p.expected_features ≠ 82 →
      p.expected_features ≠ 83 →
      extract_features ops p path sr dur =
        .error (.exception ("Feature extraction failed: " ++
          ("Feature dimension mismatch: expected " ++
            toString p.expected_features ++ ", got " ++ toString (81 : ℕ)))) := by
  intro ops p path sr dur y sr2 hex hl h81 h82 h83
  have hb : extract_body ops p path sr dur =
      .error (.valueError ("Feature dimension mismatch: expected " ++
        toString p.expected_features ++ ", got " ++ toString (81 : ℕ))) := by
    unfold extract_body
    rw [hl]
    exact reconcile_mismatch (compute_features_length ops y sr2) h81 h82 h83
  unfold extract_features
  rw [hex, hb]
  rfl

/-- C7 witness: the wrapped mismatch error evaluated at a predictor
expecting 100 features. -/
theorem dimension_mismatch_error_witness :
    extract_features ops0 p100 "a.wav" 22050 3 =
      .error (.exception ("Feature extraction failed: " ++
        ("Feature dimension mismatch: expected " ++
          toString p100.expected_features ++ ", got " ++ toString (81 : ℕ)))) :=
  dimension_mismatch_error ops0 p100 "a.wav" 22050 3 [] 22050 rfl rfl
    (by decide) (by decide) (by decide)

theorem classify_scaled_inv {m : Model} {x : List ℚ} {label : String}
    {conf : Option ℚ} {dist : List (String × ℚ)}
    (h : classify_scaled m x = .ok (label, conf, dist)) :
    emotion_map_get (m.predict x) = some label ∧
    (m.predict_proba = none → conf = none ∧ dist = []) ∧
    (∀ f, m.predict_proba = some f →
      build_probabilities m.classes_ (f x) = .ok dist ∧
      dict_get dist label = conf ∧ conf.isSome = true) := by
  unfold classify_scaled at h
  split at h
  · cases h
  · rename_i lbl hm
    split at h
    · rename_i hp
      simp only [Except.ok.injEq, Prod.mk.injEq] at h
      obtain ⟨h1, h2, h3⟩ := h
      subst h1; subst h2; subst h3
      refine ⟨hm, fun _ => ⟨rfl, rfl⟩, fun f hf => ?_⟩
      rw [hp] at hf
      cases hf
    · rename_i proba hp
      split at h
      · cases h
      · rename_i probs hb
        split at h
        · cases h
        · rename_i c hg
          simp only [Except.ok.injEq, Prod.mk.injEq] at h
          obtain ⟨h1, h2, h3⟩ := h
          subst h1; subst h2; subst h3
          refine ⟨hm, fun hn => ?_, fun f hf => ?_⟩
          · rw [hn] at hp
            cases hp
          · rw [hp] at hf
            cases hf
            exact ⟨hb, hg, rfl⟩

/-- C3: on a successful prediction, when the classifier exposes a
probability operation the distribution is the one built by pairing the
probability vector with `model.classes_` mapped through `emotion_map`,
and the returned confidence is exactly the distribution's entry for the
predicted label; when there is no probability operation, the label is
still produced while confidence is `none` and the distribution empty. -/
theorem predict_probability_contract :
    ∀ ops p path label conf dist fv,
      predict ops p path = .ok (label, conf, dist) →
      extract_features ops p path 22050 3 = .ok fv →
      (p.model.predict_proba = none → conf = none ∧ dist = []) ∧
      (∀ f, p.model.predict_proba = some f →
        build_probabilities p.model.classes_ (f (p.scaler.transform fv)) = .ok dist ∧
        dict_get dist label = conf ∧ conf.isSome = true) := by
  intro ops p path label conf dist fv h hfv
  unfold predict at h
  rw [hfv] at h
  exact (classify_scaled_inv h).2

/-- C3 witness: a concrete model with a probability operation; the
distribution pairs the probabilities with `classes_ = [1, 2]` mapped to
labels, and the confidence is the entry for the predicted label. -/
theorem predict_probability_contract_witness :
    predict ops0 p81 "a.wav" = .ok ("Neutral", some 1, dist0) ∧
    build_probabilities p81.model.classes_ [1, 0] = .ok dist0 ∧
    dict_get dist0 "Neutral" = some 1 ∧ (some (1 : ℚ)).isSome = true :=
  ⟨rfl,
    (predict_probability_contract ops0 p81 "a.wav" "Neutral" (some 1) dist0
      (List.replicate 81 0) rfl rfl).2 (fun _ => [1, 0]) rfl⟩

/-- C4: `predict_batch` returns one entry per input in input order; the
entry at every position is determined by that position's input alone — a
successful prediction recorded as-is, a raised error caught and recorded
as the null marker `(None, None, {})` — so one input's failure cannot
abort or alter the others.  The closing conjunct evaluates the spec's
two-path scenario: first path predicts, second path is missing. -/
theorem predict_batch_contract :
    ∀ ops p paths,
      (predict_batch ops p paths).length = paths.length ∧
      (∀ i, (predict_batch ops p paths).get? i =
        (paths.get? i).map (fun path =>
          match predict ops p path with
          | .ok r => (some r.1, r.2.1, r.2.2)
          | .error _ => (none, none, ([] : List (String × ℚ))))) ∧
      predict_batch ops0 p81 ["a.wav", "missing.wav"] =
        [(some "Neutral", some 1, dist0), (none, none, [])] := by
  intro ops p paths
  refine ⟨?_, ?_, rfl⟩
  · simp [predict_batch]
  · intro i
    cases hpi : paths.get? i with
    | none =>
      simp only [predict_batch]
      rw [List.get?_eq_getElem?] at hpi ⊢
      rw [List.getElem?_map, hpi]
      rfl
    | some path =>
      simp only [predict_batch]
      rw [List.get?_eq_getElem?] at hpi ⊢
      rw [List.getElem?_map, hpi]
      simp [batch_item]

/-- C5 evidence: the `run_continuous` loop body never mutates the
detector state — `self.history` (`deque(maxlen=3)`) is created at
`__init__` and never appended to, even when a `PredictionResult` is
produced and displayed (first conjunct: a concrete loud iteration yields
a result while the state, whose history starts empty, is returned
untouched). -/
theorem history_never_pushed :
    (run_continuous_step ops0 d81 init_state [1]).1 =
      .ok (some ("Neutral", some 1, dist0)) ∧
    init_state.history = [] ∧
    ∀ ops d s audio, (run_continuous_step ops d s audio).2 = s := by
  refine ⟨rfl, rfl, ?_⟩
  intro ops d s audio
  unfold run_continuous_step
  split
  · rfl
  · split <;> rfl

/-- C6: a captured buffer whose peak absolute amplitude is below the
silence threshold produces no `PredictionResult` in either live mode:
the continuous-mode iteration returns no result and an unchanged state,
and single-shot mode terminates resultless.  The conclusion holds for
every environment and detector, so the predictor is never consulted. -/
theorem silence_rejection :
    ∀ ops d s audio, maxAbs audio < silence_threshold →
      run_continuous_step ops d s audio = (.ok none, s) ∧
      run_single ops d audio = .ok none := by
  intro ops d s audio h
  constructor
  · unfold run_continuous_step
    rw [if_pos h]
  · unfold run_single
    rw [if_pos h]

/-- C6 witness: a concrete all-quiet buffer. -/
theorem silence_rejection_witness :
    maxAbs [0] < silence_threshold ∧
    run_continuous_step ops0 d81 init_state [0] = (.ok none, init_state) ∧
    run_single ops0 d81 [0] = .ok none :=
  ⟨by decide, silence_rejection ops0 d81 init_state [0] (by decide)⟩

/-- C8 counterexample: the live-capture clamp never zero-pads — a buffer
shorter than `duration × sample_rate` (here 2 samples against a 4-sample
window) passes through with its original length, so the claim that every
buffer is brought to exactly `duration × sample_rate` samples fails. -/
theorem clip_audio_cex :
    ¬ ((clip_audio d82 [1, 1]).length = d82.duration * d82.sample_rate) := by
  decide

/-- C8 (amended): before live feature extraction the buffer is truncated
to `duration × sample_rate` samples when longer, and passed through
unchanged (not zero-padded) when not longer. -/
theorem clip_audio_spec :
    ∀ d audio,
      (audio.length > d.duration * d.sample_rate →
        clip_audio d audio = audio.take (d.duration * d.sample_rate) ∧
        (clip_audio d audio).length = d.duration * d.sample_rate) ∧
      (audio.length ≤ d.duration * d.sample_rate →
        clip_audio d audio = audio) := by
  intro d audio
  constructor
  · intro h
    unfold clip_audio
    rw [if_pos h]
    refine ⟨rfl, ?_⟩
    rw [List.length_take]
    omega
  · intro h
    unfold clip_audio
    rw [if_neg (by omega)]

/-- C8 witness: a 5-sample buffer against a 4-sample window is truncated
to the 4-sample prefix. -/
theorem clip_audio_spec_witness :
    clip_audio d82 [1, 1, 1, 1, 1] =
      List.take (d82.duration * d82.sample_rate) [1, 1, 1, 1, 1] ∧
    (clip_audio d82 [1, 1, 1, 1, 1]).length = d82.duration * d82.sample_rate :=
  (clip_audio_spec d82 [1, 1, 1, 1, 1]).1 (by decide)

/-- C9: predictor construction fails with a `FileNotFoundError` naming
the missing path when the model path or (model present) the scaler path
does not exist; a successful construction records `expected_features`
from the loaded normalizer; and the demo CLI exits with code 1 whenever
construction raises at startup. -/
theorem construction_contract :
    ∀ ops mp sp,
      (ops.exists_file mp = false →
        EmotionPredictor.make ops mp sp =
          .error (.fileNotFoundError ("Model not found at " ++ mp))) ∧
      (ops.exists_file mp = true → ops.exists_file sp = false →
        EmotionPredictor.make ops mp sp =
          .error (.fileNotFoundError ("Scaler not found at " ++ sp))) ∧
      (∀ p, EmotionPredictor.make ops mp sp = .ok p →
        p.expected_features = (ops.load_scaler sp).n_features_in_) ∧
      ((∃ e, EmotionPredictor.make ops "artifacts/svm_model.pkl"
          "artifacts/standard_scaler.pkl" = .error e) →
        demo_startup ops = .inl 1) := by
  intro ops mp sp
  refine ⟨?_, ?_, ?_, ?_⟩
  · intro h
    unfold EmotionPredictor.make
    rw [if_pos h]
  · intro h1 h2
    unfold EmotionPredictor.make
    rw [h1]
    simp only [Bool.true_eq_false, if_false]
    rw [if_pos h2]
  · intro p h
    unfold EmotionPredictor.make at h
    split at h
    · cases h
    · split at h
      · cases h
      · simp only [Except.ok.injEq] at h
        subst h
        rfl
  · intro ⟨e, he⟩
    unfold demo_startup
    rw [he]

/-- C9 witness: missing artifacts at concrete paths. -/
theorem construction_contract_witness :
    EmotionPredictor.make opsF "m.pkl" "s.pkl" =
      .error (.fileNotFoundError ("Model not found at " ++ "m.pkl")) ∧
    demo_startup opsF = .inl 1 ∧
    EmotionPredictor.expected_features ⟨model0, scaler_of 81⟩ =
      (ops0.load_scaler "a.wav").n_features_in_ :=
  ⟨(construction_contract opsF "m.pkl" "s.pkl").1 rfl,
   (construction_contract opsF "m.pkl" "s.pkl").2.2.2 ⟨_, rfl⟩,
   (construction_contract ops0 "a.wav" "a.wav").2.2.1 ⟨model0, scaler_of 81⟩ rfl⟩

/-- C10: feature extraction is deterministic — two runs of the embedded
extraction on equal sample buffers (same detector, rate and duration)
yield equal feature vectors, on the live path and on the file path. -/
theorem extraction_deterministic :
    ∀ ops d a1 a2, a1 = a2 →
      extract_features_from_audio ops d a1 = extract_features_from_audio ops d a2 ∧
      ∀ p path sr dur,
        extract_features ops p path sr dur = extract_features ops p path sr dur := by
  intro ops d a1 a2 h
  subst h
  exact ⟨rfl, fun p path sr dur => rfl⟩

/-- C10 witness: two runs on a concrete identical buffer. -/
theorem extraction_deterministic_witness :
    extract_features_from_audio ops0 d81 [1] = extract_features_from_audio ops0 d81 [1] ∧
    extract_features ops0 p81 "a.wav" 22050 3 = extract_features ops0 p81 "a.wav" 22050 3 :=
  ⟨(extraction_deterministic ops0 d81 [1] [1] rfl).1,
   (extraction_deterministic ops0 d81 [1] [1] rfl).2 p81 "a.wav" 22050 3⟩
